import Mathlib

/- Shallow embedding of the `Context` wrapper from src/src/context.rs of the
ocl crate, together with a model of the crate-root helpers it calls.

Handles (`cl_platform_id`, `cl_device_id`, `cl_context`) are opaque pointers
in the source; they are modelled as natural numbers.  The native OpenCL
library is modelled as an explicit environment, and every native call a
`Context` operation issues is recorded in a trace, so that claims about which
native calls are or are not reached can be stated. -/

namespace Ocl

/-- Modelled from the spec: the constant `DEFAULT_PLATFORM` lives in the crate
root, which is not under src.  The doc comment of `Context::new` says
"Pass `None` to use the first platform available (0)", so the default
platform index is 0. -/
def DEFAULT_PLATFORM : Nat := 0

/-- Modelled from the spec: the constant `DEFAULT_DEVICE` lives in the crate
root, which is not under src.  By analogy with the documented default
platform ("the first platform available (0)") and the example comment
"Create a program/queue with the first available device", the default device
index is 0. -/
def DEFAULT_DEVICE : Nat := 0

/-- Modelled from the spec: the native OpenCL library together with the
crate-root pass-through helpers (`get_platform_ids`, `get_device_ids`,
`create_context`), none of which are under src.  The spec describes them as
direct pass-throughs to the external API: platform enumeration, device
enumeration for a platform and a device-type mask, and context creation
from a device list. -/
structure OclEnv where
  get_platform_ids : List Nat
  get_device_ids : Nat → Option Nat → List Nat
  create_context : List Nat → Nat

/-- A native API call issued by a `Context` operation, as recorded in the
trace of the operation. -/
inductive NativeCall where
  | getPlatformIds : NativeCall
  | getDeviceIds (platform : Nat) (device_types : Option Nat) : NativeCall
  | createContext (devices : List Nat) : NativeCall
  | releaseContext (handle : Nat) : NativeCall
deriving DecidableEq, Repr

/-- The `Context` struct of src/src/context.rs lines 8-12: a platform
handle option, the enumerated device list, and the native context handle. -/
structure Context where
  platform_opt : Option Nat
  device_ids : List Nat
  obj : Nat
deriving DecidableEq, Repr

/-- The error string of src/src/context.rs line 78. -/
def noPlatformsMsg : String := "\nNo OpenCL platforms found!\n"

/-- The error string of src/src/context.rs lines 84-85 (the Rust
line-continuation joins it into one string). -/
def invalidPlatformMsg : String :=
  "Invalid OpenCL platform index specified. Use \x27get_platform_ids()\x27 for a list."

/-- The error string of src/src/context.rs line 93. -/
def noDevicesMsg : String := "\nNo OpenCL devices found!\n"

/-- The tail of `Context::new` (src/src/context.rs lines 92-103), from the
point where a platform has been chosen: enumerate the devices of the
platform, fail if there are none, otherwise create the native context and
build the `Context`.  Returns the result together with the trace of native
calls issued by the whole of `new` (platform enumeration happened first). -/
def Context.new_with_platform (env : OclEnv) (platform : Nat)
    (device_types_opt : Option Nat) : Except String Context × List NativeCall :=
  let device_ids := env.get_device_ids platform device_types_opt
  if device_ids.length = 0 then
    (Except.error noDevicesMsg,
      [NativeCall.getPlatformIds, NativeCall.getDeviceIds platform device_types_opt])
  else
    (Except.ok
       { platform_opt := some platform
         device_ids := device_ids
         obj := env.create_context device_ids },
     [NativeCall.getPlatformIds, NativeCall.getDeviceIds platform device_types_opt,
      NativeCall.createContext device_ids])

/-- `Context::new` (src/src/context.rs lines 74-104): enumerate platforms,
fail if there are none; resolve the platform index option (an out-of-bounds
`Some` index fails, `None` selects `DEFAULT_PLATFORM`); then proceed as
`new_with_platform`.  The indexing `platforms[super::DEFAULT_PLATFORM]` on
line 89 can only be reached with a non-empty platform list and
`DEFAULT_PLATFORM = 0`, so the `getD` below never takes its default. -/
def Context.new (env : OclEnv) (platform_idx_opt : Option Nat)
    (device_types_opt : Option Nat) : Except String Context × List NativeCall :=
  let platforms := env.get_platform_ids
  if platforms.length = 0 then
    (Except.error noPlatformsMsg, [NativeCall.getPlatformIds])
  else
    match platform_idx_opt with
    | some pf_idx =>
      match platforms[pf_idx]? with
      | some pf => Context.new_with_platform env pf device_types_opt
      | none => (Except.error invalidPlatformMsg, [NativeCall.getPlatformIds])
    | none =>
      Context.new_with_platform env (platforms.getD DEFAULT_PLATFORM 0) device_types_opt

/-- `Context::valid_device` (src/src/context.rs lines 129-132): reduce the
index modulo the device-list length, then index.  Rust panics on `% 0` when
the device list is empty; the model returns `none` exactly there (in Lean
`di % 0 = di`, which is then out of bounds of the empty list). -/
def Context.valid_device (c : Context) (selected_idx : Nat) : Option Nat :=
  let valid_idx := selected_idx % c.device_ids.length
  c.device_ids[valid_idx]?

/-- `Context::resolve_device_id` (src/src/context.rs lines 106-111):
a `Some` index goes through `valid_device`; `None` indexes the device list
directly at `DEFAULT_DEVICE` (a Rust panic when out of bounds, modelled as
`none`). -/
def Context.resolve_device_id (c : Context) (device_idx : Option Nat) : Option Nat :=
  match device_idx with
  | some di => c.valid_device di
  | none => c.device_ids[DEFAULT_DEVICE]?

/-- `Context::platform` (src/src/context.rs lines 124-126). -/
def Context.platform (c : Context) : Option Nat :=
  c.platform_opt

/-- `Context::release` (src/src/context.rs lines 135-139): forwards the
stored handle to `clReleaseContext` and nothing else.  The native call
returns a `cl_int` status code; the source statement
`cl_h::clReleaseContext(self.obj);` drops that value, so the model takes
the code as an argument that the body does not consume.  The result is the
(unchanged) context together with the trace of the call. -/
def Context.release (c : Context) (releaseRetCode : Int) : Context × List NativeCall :=
  (c, [NativeCall.releaseContext c.obj])

/-- The platform that `Context::new` selects for a given platform index
option, when one exists: an in-bounds `Some` index selects that position,
`None` selects position `DEFAULT_PLATFORM`. -/
def selected_platform (env : OclEnv) (platform_idx_opt : Option Nat) : Option Nat :=
  match platform_idx_opt with
  | some pf_idx => env.get_platform_ids[pf_idx]?
  | none => some (env.get_platform_ids.getD DEFAULT_PLATFORM 0)

/-- A concrete environment with two platforms and three devices, used to
instantiate hypotheses at concrete inputs. -/
def env0 : OclEnv where
  get_platform_ids := [10, 11]
  get_device_ids := fun _ _ => [20, 21, 22]
  create_context := fun _ => 99

/-- The context `Context.new env0 none none` constructs. -/
def ctx0 : Context where
  platform_opt := some 10
  device_ids := [20, 21, 22]
  obj := 99

/-- A concrete environment whose (sole, in-bounds) platform enumerates no
devices. -/
def envNoDev : OclEnv where
  get_platform_ids := [10]
  get_device_ids := fun _ _ => []
  create_context := fun _ => 99

/-- A concrete environment with no platforms at all. -/
def envEmpty : OclEnv where
  get_platform_ids := []
  get_device_ids := fun _ _ => []
  create_context := fun _ => 0

/-- Rewriting lemma: `Context.new` first checks for an empty platform list,
then branches on whether `selected_platform` found a platform. -/
theorem new_eq (env : OclEnv) (pfo dto : Option Nat) :
    Context.new env pfo dto =
      if env.get_platform_ids.length = 0 then
        (Except.error noPlatformsMsg, [NativeCall.getPlatformIds])
      else
        match selected_platform env pfo with
        | some pf => Context.new_with_platform env pf dto
        | none => (Except.error invalidPlatformMsg, [NativeCall.getPlatformIds]) := by
  cases pfo <;> rfl

/-- Inversion for the tail of `new`: a successful result pins down every
field of the constructed context and forces a non-empty device list. -/
theorem new_with_platform_ok (env : OclEnv) (pf : Nat) (dto : Option Nat) (c : Context)
    (h : (Context.new_with_platform env pf dto).1 = Except.ok c) :
    c.platform_opt = some pf ∧ c.device_ids = env.get_device_ids pf dto ∧
    c.device_ids.length ≠ 0 ∧ c.obj = env.create_context (env.get_device_ids pf dto) := by
  unfold Context.new_with_platform at h
  by_cases hd : (env.get_device_ids pf dto).length = 0
  · simp [hd] at h
  · simp only [hd, if_false] at h
    rw [Except.ok.injEq] at h
    subst h
    exact ⟨rfl, rfl, hd, rfl⟩

/-- Inversion for `Context.new`: a successful result selected a platform,
stored it, stored that platform's enumerated device list (non-empty), and
stored the handle returned by context creation on that list. -/
theorem new_ok_inv (env : OclEnv) (pfo dto : Option Nat) (c : Context)
    (h : (Context.new env pfo dto).1 = Except.ok c) :
    ∃ pf, selected_platform env pfo = some pf ∧ c.platform_opt = some pf ∧
      c.device_ids = env.get_device_ids pf dto ∧ c.device_ids.length ≠ 0 ∧
      c.obj = env.create_context (env.get_device_ids pf dto) := by
  rw [new_eq] at h
  split at h
  · simp at h
  · split at h
    case _ pf hsel =>
      obtain ⟨h1, h2, h3, h4⟩ := new_with_platform_ok env pf dto c h
      exact ⟨pf, hsel, h1, h2, h3, h4⟩
    case _ hsel => simp at h

/-- Branch characterization: with no platforms, `new` fails immediately. -/
theorem new_no_platforms (env : OclEnv) (pfo dto : Option Nat)
    (h0 : env.get_platform_ids.length = 0) :
    Context.new env pfo dto = (Except.error noPlatformsMsg, [NativeCall.getPlatformIds]) := by
  rw [new_eq, if_pos h0]

/-- Branch characterization: an out-of-bounds `Some` platform index fails
before any device enumeration. -/
theorem new_invalid_platform (env : OclEnv) (pf_idx : Nat) (dto : Option Nat)
    (hne : env.get_platform_ids.length ≠ 0) (hle : env.get_platform_ids.length ≤ pf_idx) :
    Context.new env (some pf_idx) dto =
      (Except.error invalidPlatformMsg, [NativeCall.getPlatformIds]) := by
  rw [new_eq, if_neg hne]
  have hsel : selected_platform env (some pf_idx) = none := by
    simp [selected_platform, List.getElem?_eq_none hle]
  rw [hsel]

/-- Branch characterization: a selected platform with no devices fails after
device enumeration, before context creation. -/
theorem new_no_devices (env : OclEnv) (pfo dto : Option Nat) (pf : Nat)
    (hne : env.get_platform_ids.length ≠ 0) (hsel : selected_platform env pfo = some pf)
    (hdev : (env.get_device_ids pf dto).length = 0) :
    Context.new env pfo dto =
      (Except.error noDevicesMsg,
       [NativeCall.getPlatformIds, NativeCall.getDeviceIds pf dto]) := by
  rw [new_eq, if_neg hne, hsel]
  simp [Context.new_with_platform, hdev]

/-- Branch characterization: with a selected platform and a non-empty device
list, `new` creates the native context and succeeds. -/
theorem new_success (env : OclEnv) (pfo dto : Option Nat) (pf : Nat)
    (hne : env.get_platform_ids.length ≠ 0) (hsel : selected_platform env pfo = some pf)
    (hdev : (env.get_device_ids pf dto).length ≠ 0) :
    Context.new env pfo dto =
      (Except.ok
         { platform_opt := some pf
           device_ids := env.get_device_ids pf dto
           obj := env.create_context (env.get_device_ids pf dto) },
       [NativeCall.getPlatformIds, NativeCall.getDeviceIds pf dto,
        NativeCall.createContext (env.get_device_ids pf dto)]) := by
  rw [new_eq, if_neg hne, hsel]
  simp [Context.new_with_platform, hdev]

/-- Claim C1: for every context constructed by `Context::new`, the index a
device-selection operation actually uses into `device_ids` is in bounds:
`valid_device` reduces the requested index modulo the list length, the
reduced index is below the length, the lookup succeeds, and
`resolve_device_id` with a `Some` index goes through `valid_device`. -/
theorem device_selection_in_bounds (env : OclEnv) (pfo dto : Option Nat) (c : Context)
    (h : (Context.new env pfo dto).1 = Except.ok c) (di : Nat) :
    di % c.device_ids.length < c.device_ids.length ∧
    c.valid_device di = c.device_ids[di % c.device_ids.length]? ∧
    (c.valid_device di).isSome ∧
    c.resolve_device_id (some di) = c.valid_device di := by
  obtain ⟨pf, _, _, _, hne, _⟩ := new_ok_inv env pfo dto c h
  have hlt : di % c.device_ids.length < c.device_ids.length :=
    Nat.mod_lt di (Nat.pos_of_ne_zero hne)
  refine ⟨hlt, rfl, ?_, rfl⟩
  simp [Context.valid_device, List.getElem?_eq_getElem hlt]

/-- Witness for C1 at the concrete environment `env0` and index 5. -/
theorem device_selection_in_bounds_witness :
    5 % ctx0.device_ids.length < ctx0.device_ids.length ∧
    ctx0.valid_device 5 = ctx0.device_ids[5 % ctx0.device_ids.length]? ∧
    (ctx0.valid_device 5).isSome ∧
    ctx0.resolve_device_id (some 5) = ctx0.valid_device 5 :=
  device_selection_in_bounds env0 none none ctx0 rfl 5

/-- Claim C6: `release` delegates lifetime management entirely to the native
reference-counted context: it forwards the stored handle to
`clReleaseContext` and leaves every field of the `Context` (`platform_opt`,
`device_ids`, `obj`) unchanged, doing no bookkeeping of its own. -/
theorem release_delegates_and_frames (c : Context) (r : Int) :
    (c.release r).1 = c ∧
    (c.release r).1.platform_opt = c.platform_opt ∧
    (c.release r).1.device_ids = c.device_ids ∧
    (c.release r).1.obj = c.obj ∧
    (c.release r).2 = [NativeCall.releaseContext c.obj] :=
  ⟨rfl, rfl, rfl, rfl, rfl⟩

/-- Claim C7: every context returned `Ok` by `Context::new` has a non-empty
device list, the invariant is preserved by `release` (the only mutating
operation), and consequently the modulo in `valid_device` never divides by
zero: `valid_device` succeeds at every index. -/
theorem new_ok_device_ids_nonempty (env : OclEnv) (pfo dto : Option Nat) (c : Context)
    (h : (Context.new env pfo dto).1 = Except.ok c) :
    0 < c.device_ids.length ∧
    (∀ r, ((c.release r).1).device_ids = c.device_ids) ∧
    ∀ di, (c.valid_device di).isSome := by
  obtain ⟨pf, _, _, _, hne, _⟩ := new_ok_inv env pfo dto c h
  have hpos : 0 < c.device_ids.length := Nat.pos_of_ne_zero hne
  refine ⟨hpos, fun r => rfl, fun di => ?_⟩
  simp [Context.valid_device, List.getElem?_eq_getElem (Nat.mod_lt di hpos)]

/-- Witness for C7 at the concrete environment `env0`. -/
theorem new_ok_device_ids_nonempty_witness :
    0 < ctx0.device_ids.length ∧
    (∀ r, ((ctx0.release r).1).device_ids = ctx0.device_ids) ∧
    ∀ di, (ctx0.valid_device di).isSome :=
  new_ok_device_ids_nonempty env0 none none ctx0 rfl

/-- Claim C8: `resolve_device_id` with a `Some` index equals `valid_device`,
which indexes `device_ids` at the index reduced modulo the list length (so
an out-of-range index is wrapped, not rejected: the lookup still succeeds on
a non-empty list), while `resolve_device_id` with `None` indexes the device
list directly at `DEFAULT_DEVICE` with no wrapping. -/
theorem resolve_device_id_spec (c : Context) (di : Nat) :
    c.resolve_device_id (some di) = c.valid_device di ∧
    c.valid_device di = c.device_ids[di % c.device_ids.length]? ∧
    c.resolve_device_id none = c.device_ids[DEFAULT_DEVICE]? ∧
    (c.device_ids ≠ [] → c.device_ids.length ≤ di → (c.valid_device di).isSome) := by
  refine ⟨rfl, rfl, rfl, fun hne _ => ?_⟩
  have hpos : 0 < c.device_ids.length := List.length_pos.mpr hne
  simp [Context.valid_device, List.getElem?_eq_getElem (Nat.mod_lt di hpos)]

/-- Witness for C8 at the concrete context `ctx0` and the out-of-range
index 7 (the device list has length 3). -/
theorem resolve_device_id_spec_witness :
    (ctx0.valid_device 7).isSome ∧
    ctx0.resolve_device_id (some 7) = ctx0.valid_device 7 :=
  ⟨(resolve_device_id_spec ctx0 7).2.2.2 (by decide) (by decide),
   (resolve_device_id_spec ctx0 7).1⟩

/-- Claim C9: every context returned `Ok` by `Context::new` stores `Some`
platform, so `platform()` never returns `None`; when the caller passed
`None` as the platform index, the stored platform is the one at index
`DEFAULT_PLATFORM` of the enumerated list. -/
theorem new_ok_platform_is_some (env : OclEnv) (pfo dto : Option Nat) (c : Context)
    (h : (Context.new env pfo dto).1 = Except.ok c) :
    (∃ pf, c.platform = some pf) ∧
    (pfo = none → c.platform = some (env.get_platform_ids.getD DEFAULT_PLATFORM 0)) := by
  obtain ⟨pf, hsel, hplat, _⟩ := new_ok_inv env pfo dto c h
  refine ⟨⟨pf, hplat⟩, fun hnone => ?_⟩
  subst hnone
  simp only [selected_platform, Option.some.injEq] at hsel
  rw [Context.platform, hplat, hsel]

/-- Witness for C9 at the concrete environment `env0` with a `None`
platform index. -/
theorem new_ok_platform_is_some_witness :
    ctx0.platform = some (env0.get_platform_ids.getD DEFAULT_PLATFORM 0) :=
  (new_ok_platform_is_some env0 none none ctx0 rfl).2 rfl

/-- Claim C2: `Context::new` fails with a static failure string in exactly
three cases — empty platform list (the "no platforms found" message), a
`Some` platform index out of bounds (the "invalid platform index" message),
and an empty device list for the chosen platform — and in every other case
returns `Ok` with a constructed context; every error is one of those three
messages. -/
theorem new_error_cases (env : OclEnv) (pfo dto : Option Nat) :
    (env.get_platform_ids.length = 0 →
      (Context.new env pfo dto).1 = Except.error noPlatformsMsg) ∧
    (∀ pf_idx, pfo = some pf_idx → env.get_platform_ids.length ≠ 0 →
      env.get_platform_ids.length ≤ pf_idx →
      (Context.new env pfo dto).1 = Except.error invalidPlatformMsg) ∧
    (∀ pf, env.get_platform_ids.length ≠ 0 → selected_platform env pfo = some pf →
      (env.get_device_ids pf dto).length = 0 →
      (Context.new env pfo dto).1 = Except.error noDevicesMsg) ∧
    (∀ pf, env.get_platform_ids.length ≠ 0 → selected_platform env pfo = some pf →
      (env.get_device_ids pf dto).length ≠ 0 →
      ∃ c, (Context.new env pfo dto).1 = Except.ok c) ∧
    (∀ e, (Context.new env pfo dto).1 = Except.error e →
      e = noPlatformsMsg ∨ e = invalidPlatformMsg ∨ e = noDevicesMsg) := by
  refine ⟨?_, ?_, ?_, ?_, ?_⟩
  · intro h0
    rw [new_no_platforms env pfo dto h0]
  · intro pf_idx hp hne hle
    subst hp
    rw [new_invalid_platform env pf_idx dto hne hle]
  · intro pf hne hsel hdev
    rw [new_no_devices env pfo dto pf hne hsel hdev]
  · intro pf hne hsel hdev
    exact ⟨_, by rw [new_success env pfo dto pf hne hsel hdev]⟩
  · intro e he
    by_cases h0 : env.get_platform_ids.length = 0
    · rw [new_no_platforms env pfo dto h0] at he
      exact Or.inl (Except.error.inj he).symm
    · cases hsel : selected_platform env pfo with
      | none =>
        cases pfo with
        | none => simp [selected_platform] at hsel
        | some pf_idx =>
          simp only [selected_platform] at hsel
          have hle := List.getElem?_eq_none_iff.mp hsel
          rw [new_invalid_platform env pf_idx dto h0 hle] at he
          exact Or.inr (Or.inl (Except.error.inj he).symm)
      | some pf =>
        by_cases hdev : (env.get_device_ids pf dto).length = 0
        · rw [new_no_devices env pfo dto pf h0 hsel hdev] at he
          exact Or.inr (Or.inr (Except.error.inj he).symm)
        · rw [new_success env pfo dto pf h0 hsel hdev] at he
          exact absurd he (by simp)

/-- Witness for C2: in `env0` an out-of-bounds platform index 5 yields
exactly the invalid-platform-index message. -/
theorem new_error_cases_witness :
    (Context.new env0 (some 5) none).1 = Except.error invalidPlatformMsg :=
  (new_error_cases env0 (some 5) none).2.1 5 rfl (by decide) (by decide)

/-- Claim C3 (amended): `Context::new` with `Some idx` is a
validate-then-forward shim: when `idx` is in bounds of the platform list AND
the device list enumerated from that platform is non-empty, the platform at
position `idx` is selected (stored in any `Ok` result) and `create_context`
is invoked with that platform's device list; when `idx` is out of bounds,
`new` returns an error without reaching `create_context`; and on every
error path, of any platform-index option, `create_context` is never
invoked. -/
theorem new_validate_then_forward (env : OclEnv) (pf_idx : Nat) (dto : Option Nat) :
    (∀ pf, env.get_platform_ids[pf_idx]? = some pf →
      (env.get_device_ids pf dto).length ≠ 0 →
      (∀ c, (Context.new env (some pf_idx) dto).1 = Except.ok c → c.platform_opt = some pf) ∧
      NativeCall.createContext (env.get_device_ids pf dto)
        ∈ (Context.new env (some pf_idx) dto).2) ∧
    (env.get_platform_ids.length ≤ pf_idx →
      (∃ e, (Context.new env (some pf_idx) dto).1 = Except.error e) ∧
      ∀ devs, NativeCall.createContext devs ∉ (Context.new env (some pf_idx) dto).2) ∧
    (∀ e pfo, (Context.new env pfo dto).1 = Except.error e →
      ∀ devs, NativeCall.createContext devs ∉ (Context.new env pfo dto).2) := by
  refine ⟨?_, ?_, ?_⟩
  · intro pf hpf hdev
    have hlt : pf_idx < env.get_platform_ids.length := by
      by_contra hc
      rw [List.getElem?_eq_none (Nat.le_of_not_lt hc)] at hpf
      exact Option.noConfusion hpf
    have hne : env.get_platform_ids.length ≠ 0 := by omega
    have hsel : selected_platform env (some pf_idx) = some pf := hpf
    rw [new_success env (some pf_idx) dto pf hne hsel hdev]
    exact ⟨fun c hc => by rw [← Except.ok.inj hc], by simp⟩
  · intro hle
    by_cases h0 : env.get_platform_ids.length = 0
    · rw [new_no_platforms env (some pf_idx) dto h0]
      exact ⟨⟨noPlatformsMsg, rfl⟩, by simp⟩
    · rw [new_invalid_platform env pf_idx dto h0 hle]
      exact ⟨⟨invalidPlatformMsg, rfl⟩, by simp⟩
  · intro e pfo he devs
    by_cases h0 : env.get_platform_ids.length = 0
    · rw [new_no_platforms env pfo dto h0]
      simp
    · cases hsel : selected_platform env pfo with
      | none =>
        cases pfo with
        | none => simp [selected_platform] at hsel
        | some i =>
          simp only [selected_platform] at hsel
          have hle := List.getElem?_eq_none_iff.mp hsel
          rw [new_invalid_platform env i dto h0 hle]
          simp
      | some pf =>
        by_cases hdev : (env.get_device_ids pf dto).length = 0
        · rw [new_no_devices env pfo dto pf h0 hsel hdev]
          simp
        · rw [new_success env pfo dto pf h0 hsel hdev] at he
          exact absurd he (by simp)

/-- Witness for C3 (amended) at `env0` with the in-bounds index 1. -/
theorem new_validate_then_forward_witness :
    NativeCall.createContext (env0.get_device_ids 11 none)
      ∈ (Context.new env0 (some 1) none).2 :=
  ((new_validate_then_forward env0 1 none).1 11 rfl (by decide)).2

/-- Counterexample for C3 as stated: in `envNoDev` the platform index 0 is
in bounds, yet `Context::new` returns the no-devices error and the native
context-creation call is never issued, because the enumerated device list of
that platform is empty. -/
theorem new_in_bounds_without_create_context :
    envNoDev.get_platform_ids[0]? = some 10 ∧
    (Context.new envNoDev (some 0) none).1 = Except.error noDevicesMsg ∧
    NativeCall.createContext (envNoDev.get_device_ids 10 none)
      ∉ (Context.new envNoDev (some 0) none).2 := by
  refine ⟨rfl, rfl, ?_⟩
  decide

/-- Counterexample for C4 as stated: `release` does not inspect the return
code of `clReleaseContext`: at the concrete context `ctx0` its behaviour is
identical for the success code 0 and the error code -34
(`CL_INVALID_CONTEXT`), and its result carries the code nowhere. -/
theorem release_return_code_ignored_counterexample :
    ctx0.release 0 = ctx0.release (-34) ∧
    ctx0.release (-34) = (ctx0, [NativeCall.releaseContext 99]) :=
  ⟨rfl, rfl⟩

/-- Claim C4 (amended): `Context::new` validates the results of the
enumeration calls (surfacing an empty platform list as an error), but the
return code of `clReleaseContext` in `release` is discarded rather than
inspected: `release` behaves identically for every return code. -/
theorem release_discards_return_code (c : Context) (r1 r2 : Int) (env : OclEnv)
    (pfo dto : Option Nat) :
    c.release r1 = c.release r2 ∧
    (c.release r1).2 = [NativeCall.releaseContext c.obj] ∧
    (env.get_platform_ids.length = 0 →
      (Context.new env pfo dto).1 = Except.error noPlatformsMsg) :=
  ⟨rfl, rfl, fun h0 => by rw [new_no_platforms env pfo dto h0]⟩

/-- Witness for C4 (amended) at the concrete context `ctx0` and the
platform-free environment `envEmpty`. -/
theorem release_discards_return_code_witness :
    ctx0.release 0 = ctx0.release 1 ∧
    (Context.new envEmpty none none).1 = Except.error noPlatformsMsg :=
  ⟨(release_discards_return_code ctx0 0 1 envEmpty none none).1,
   (release_discards_return_code ctx0 0 1 envEmpty none none).2.2 rfl⟩

/-- Counterexample for C5 as stated: after `ctx0.release` has forwarded the
handle 99 to `clReleaseContext`, the released handle is still used: `obj`
still returns 99, and a repeated `release` forwards the released handle 99
to the external API again. -/
theorem use_after_release_counterexample :
    (ctx0.release 0).2 = [NativeCall.releaseContext 99] ∧
    ((ctx0.release 0).1).obj = 99 ∧
    ((ctx0.release 0).1.release 0).2 = [NativeCall.releaseContext 99] :=
  ⟨rfl, rfl, rfl⟩

/-- Claim C5 (amended): the wrapper does not enforce "no use after release":
`release` leaves the stored handle and device list unchanged, `obj` still
returns the released handle afterwards, and a repeated `release` forwards
the already-released handle to `clReleaseContext` again; avoiding
use-after-release is an obligation on the caller, not a guarantee of the
wrapper. -/
theorem release_leaves_handle_in_use (c : Context) (r1 r2 : Int) :
    (c.release r1).1.obj = c.obj ∧
    ((c.release r1).1.release r2).2 = [NativeCall.releaseContext c.obj] ∧
    (c.release r1).1.device_ids = c.device_ids :=
  ⟨rfl, rfl, rfl⟩

end Ocl
